import Mathlib

/-!
Verification of the MySensors message core (`MyMessage.h`): the bitfield
codec macros (`BF_GET`/`BF_SET`/`BF_PREP`), the header sub-field layout,
the typed payload store, and the hex serialization.

Machine integers are modelled as `Nat` with explicit `% 256` where a value
is stored back into a `uint8_t` field; the C `~` complement of the promoted
32-bit `int` operand is modelled as xor with `2^32 - 1`.
-/

/-- The C macro `BIT(n) = ( 1<<(n) )`. -/
def BIT (n : Nat) : Nat := 1 <<< n

/-- The C macro `BIT_MASK(len) = ( BIT(len)-1 )`. -/
def BIT_MASK (len : Nat) : Nat := BIT len - 1

/-- The C macro `BF_MASK(start, len) = ( BIT_MASK(len)<<(start) )`. -/
def BF_MASK (start len : Nat) : Nat := BIT_MASK len <<< start

/-- The C macro `BF_PREP(x, start, len) = ( ((x)&BIT_MASK(len)) << (start) )`. -/
def BF_PREP (x start len : Nat) : Nat := (x &&& BIT_MASK len) <<< start

/-- The C macro `BF_GET(y, start, len) = ( ((y)>>(start)) & BIT_MASK(len) )`. -/
def BF_GET (y start len : Nat) : Nat := (y >>> start) &&& BIT_MASK len

/-- C bitwise complement `~m` of a nonnegative promoted 32-bit `int` operand. -/
def cNot32 (m : Nat) : Nat := (2 ^ 32 - 1) ^^^ m

/-- The C macro `BF_SET(y, x, start, len) = ( y = ((y) &~ BF_MASK(start, len)) | BF_PREP(x, start, len) )`;
the assignment stores the promoted-int result back into a `uint8_t` field, hence `% 256`. -/
def BF_SET (y x start len : Nat) : Nat :=
  ((y &&& cNot32 (BF_MASK start len)) ||| BF_PREP x start len) % 256

lemma BIT_eq (n : Nat) : BIT n = 2 ^ n := by
  simp [BIT, Nat.shiftLeft_eq]

lemma BIT_MASK_eq (l : Nat) : BIT_MASK l = 2 ^ l - 1 := by
  simp [BIT_MASK, BIT_eq]

lemma BF_SET_lt (y x s l : Nat) : BF_SET y x s l < 256 := by
  unfold BF_SET
  exact Nat.mod_lt _ (by decide)

/-- Bit-level behaviour of `BF_SET` on an 8-bit container: inside the field the
inserted value's bits appear (shifted), outside it the container is unchanged. -/
lemma testBit_BF_SET (y x s l i : Nat) (hy : y < 256) (hsl : s + l ≤ 8) :
    (BF_SET y x s l).testBit i =
      if s ≤ i ∧ i < s + l then x.testBit (i - s) else y.testBit i := by
  unfold BF_SET BF_PREP BF_MASK cNot32
  rw [BIT_MASK_eq, (by norm_num : (256 : Nat) = 2 ^ 8)]
  simp only [Nat.testBit_mod_two_pow, Nat.testBit_lor, Nat.testBit_land, Nat.testBit_xor,
    Nat.testBit_shiftLeft, Nat.testBit_two_pow_sub_one, ge_iff_le]
  by_cases h8 : i < 8
  · by_cases hreg : s ≤ i ∧ i < s + l
    · have hs : s ≤ i := hreg.1
      have hl : i - s < l := by omega
      have h32 : i < 32 := by omega
      simp [h8, hs, hl, h32, hreg]
    · simp only [hreg, if_false]
      by_cases hs : s ≤ i
      · have hl : ¬ (i - s < l) := by omega
        have h32 : i < 32 := by omega
        simp [h8, hs, hl, h32]
      · have h32 : i < 32 := by omega
        simp [h8, hs, h32]
  · have hy8 : y.testBit i = false := by
      apply Nat.testBit_lt_two_pow
      calc y < 256 := hy
        _ = 2 ^ 8 := by norm_num
        _ ≤ 2 ^ i := Nat.pow_le_pow_right (by norm_num) (by omega)
    have hreg : ¬ (s ≤ i ∧ i < s + l) := by omega
    simp [h8, hreg, hy8]

/-- Extracting a field after inserting `v` yields `v` truncated to the field's width. -/
lemma BF_GET_BF_SET (y v s l : Nat) (hy : y < 256) (hsl : s + l ≤ 8) :
    BF_GET (BF_SET y v s l) s l = v % 2 ^ l := by
  apply Nat.eq_of_testBit_eq
  intro i
  unfold BF_GET
  rw [BIT_MASK_eq]
  simp only [Nat.testBit_land, Nat.testBit_shiftRight, Nat.testBit_two_pow_sub_one,
    Nat.testBit_mod_two_pow, testBit_BF_SET y v s l (s + i) hy hsl]
  by_cases hil : i < l
  · have hreg : s ≤ s + i ∧ s + i < s + l := by omega
    simp [hreg, hil]
  · have hreg : ¬ (s ≤ s + i ∧ s + i < s + l) := by omega
    simp [hreg, hil]

lemma BF_GET_lt (y s l : Nat) : BF_GET y s l < 2 ^ l := by
  unfold BF_GET
  rw [BIT_MASK_eq, Nat.and_pow_two_sub_one_eq_mod]
  exact Nat.mod_lt _ (Nat.two_pow_pos l)

lemma BF_SET_overwrite (y v1 v2 s l : Nat) (hy : y < 256) (hsl : s + l ≤ 8) :
    BF_SET (BF_SET y v1 s l) v2 s l = BF_SET y v2 s l := by
  apply Nat.eq_of_testBit_eq
  intro i
  rw [testBit_BF_SET _ v2 s l i (BF_SET_lt y v1 s l) hsl,
    testBit_BF_SET y v2 s l i hy hsl]
  by_cases h : s ≤ i ∧ i < s + l
  · simp [h]
  · simp [h, testBit_BF_SET y v1 s l i hy hsl]

/-- C1: for every 8-bit container `y`, bit offset `start` and width `len` with
`start + len ≤ 8`, and every value `v < 2^len`, extracting the field after
inserting `v` returns `v`: `BF_GET(BF_SET(y, v, start, len), start, len) = v`. -/
theorem C1_bitfield_insert_extract (y v start len : Nat) (hy : y < 256)
    (hsl : start + len ≤ 8) (hv : v < 2 ^ len) :
    BF_GET (BF_SET y v start len) start len = v := by
  rw [BF_GET_BF_SET y v start len hy hsl, Nat.mod_eq_of_lt hv]

theorem C1_bitfield_insert_extract_witness :
    BF_GET (BF_SET 171 5 3 3) 3 3 = 5 :=
  C1_bitfield_insert_extract 171 5 3 3 (by decide) (by decide) (by decide)

/-- C2: for every 8-bit container `y`, field at offset `start` of width `len`
(`start + len ≤ 8`), and every value `v ≥ 2^len`, inserting `v` and extracting
the field returns `v % 2^len` — silent truncation to the low-order bits. -/
theorem C2_bitfield_truncation (y v start len : Nat) (hy : y < 256)
    (hsl : start + len ≤ 8) (hv : 2 ^ len ≤ v) :
    BF_GET (BF_SET y v start len) start len = v % 2 ^ len :=
  BF_GET_BF_SET y v start len hy hsl

theorem C2_bitfield_truncation_witness :
    BF_GET (BF_SET 255 100 3 3) 3 3 = 100 % 2 ^ 3 :=
  C2_bitfield_truncation 255 100 3 3 (by decide) (by decide) (by decide)

/-- C9: bitfield insertion is overwriting (last write wins): inserting `v1` and
then `v2` into the same field equals inserting `v2` alone; in particular
inserting the same value twice is idempotent. -/
theorem C9_bitfield_overwrite (y v1 v2 start len : Nat) (hy : y < 256)
    (hsl : start + len ≤ 8) :
    BF_SET (BF_SET y v1 start len) v2 start len = BF_SET y v2 start len ∧
    BF_SET (BF_SET y v1 start len) v1 start len = BF_SET y v1 start len :=
  ⟨BF_SET_overwrite y v1 v2 start len hy hsl,
   BF_SET_overwrite y v1 v1 start len hy hsl⟩

theorem C9_bitfield_overwrite_witness :
    BF_SET (BF_SET 240 6 3 5) 17 3 5 = BF_SET 240 17 3 5 ∧
    BF_SET (BF_SET 240 6 3 5) 6 3 5 = BF_SET 240 6 3 5 :=
  C9_bitfield_overwrite 240 6 17 3 5 (by decide) (by decide)

lemma BF_GET_eq_div_mod (y s l : Nat) : BF_GET y s l = y / 2 ^ s % 2 ^ l := by
  unfold BF_GET
  rw [BIT_MASK_eq, Nat.and_pow_two_sub_one_eq_mod, Nat.shiftRight_eq_div_pow]

/-- Arithmetic characterization of `BF_SET` on an 8-bit container: the bits
below the field, the truncated value in the field, and the bits above it. -/
lemma BF_SET_eq_arith (y v s l : Nat) (hy : y < 256) (hsl : s + l ≤ 8) :
    BF_SET y v s l = y % 2 ^ s + v % 2 ^ l * 2 ^ s + y / 2 ^ (s + l) * 2 ^ (s + l) := by
  apply Nat.eq_of_testBit_eq
  intro i
  rw [testBit_BF_SET y v s l i hy hsl]
  have hrw : y % 2 ^ s + v % 2 ^ l * 2 ^ s + y / 2 ^ (s + l) * 2 ^ (s + l)
      = 2 ^ s * (v % 2 ^ l + 2 ^ l * (y / 2 ^ (s + l))) + y % 2 ^ s := by
    rw [pow_add]; ring
  rw [hrw, Nat.testBit_mul_pow_two_add _ (Nat.mod_lt y (Nat.two_pow_pos s)) i]
  by_cases his : i < s
  · have hreg : ¬ (s ≤ i ∧ i < s + l) := by omega
    simp [his, hreg, Nat.testBit_mod_two_pow]
  · rw [if_neg his]
    have hrw2 : v % 2 ^ l + 2 ^ l * (y / 2 ^ (s + l))
        = 2 ^ l * (y / 2 ^ (s + l)) + v % 2 ^ l := by ring
    rw [hrw2, Nat.testBit_mul_pow_two_add _ (Nat.mod_lt v (Nat.two_pow_pos l)) (i - s)]
    by_cases hil : i < s + l
    · have hreg : s ≤ i ∧ i < s + l := by omega
      have hisl : i - s < l := by omega
      simp [hreg, hisl, Nat.testBit_mod_two_pow]
    · have hreg : ¬ (s ≤ i ∧ i < s + l) := by omega
      have hge : ¬ (i - s < l) := by omega
      rw [if_neg hreg, if_neg hge, ← Nat.shiftRight_eq_div_pow, Nat.testBit_shiftRight]
      congr 1
      omega

/-- `PROTOCOL_VERSION` from `MyMessage.h`. -/
def PROTOCOL_VERSION : Nat := 2

/-- `MAX_MESSAGE_LENGTH` from `MyMessage.h`. -/
def MAX_MESSAGE_LENGTH : Nat := 32

/-- `HEADER_SIZE` from `MyMessage.h`. -/
def HEADER_SIZE : Nat := 7

/-- `MAX_PAYLOAD = MAX_MESSAGE_LENGTH - HEADER_SIZE`. -/
def MAX_PAYLOAD : Nat := MAX_MESSAGE_LENGTH - HEADER_SIZE

/-- Enumerator `C_SET = 1` of `mysensor_command`. -/
def C_SET : Nat := 1

/-- Enumerator `P_STRING = 0` of `mysensor_payload`. -/
def P_STRING : Nat := 0

/-- Enumerator `P_BYTE = 1` of `mysensor_payload`. -/
def P_BYTE : Nat := 1

/-- Enumerator `P_INT16 = 2` of `mysensor_payload`. -/
def P_INT16 : Nat := 2

/-- Enumerator `P_UINT16 = 3` of `mysensor_payload`. -/
def P_UINT16 : Nat := 3

/-- Enumerator `P_LONG32 = 4` of `mysensor_payload`. -/
def P_LONG32 : Nat := 4

/-- Enumerator `P_ULONG32 = 5` of `mysensor_payload`. -/
def P_ULONG32 : Nat := 5

/-- Enumerator `P_CUSTOM = 6` of `mysensor_payload`. -/
def P_CUSTOM : Nat := 6

/-- Enumerator `P_FLOAT32 = 7` of `mysensor_payload`. -/
def P_FLOAT32 : Nat := 7

/-- The `MyMessage` record: seven `uint8_t` header bytes followed by the
payload union, modelled as its underlying byte buffer `data` of
`MAX_PAYLOAD + 1` bytes (multi-byte members are laid down little-endian,
one consistent choice of the platform byte order the C union inherits). -/
structure MyMessage where
  last : Nat
  sender : Nat
  destination : Nat
  version_length : Nat
  command_ack_payload : Nat
  type : Nat
  sensor : Nat
  data : List Nat

/-- Macro `mSetVersion(_msg,_version) = BF_SET(_msg.version_length, _version, 0, 2)`. -/
def mSetVersion (msg : MyMessage) (v : Nat) : MyMessage :=
  { msg with version_length := BF_SET msg.version_length v 0 2 }

/-- Macro `mGetVersion(_msg) = BF_GET(_msg.version_length, 0, 2)`. -/
def mGetVersion (msg : MyMessage) : Nat := BF_GET msg.version_length 0 2

/-- Macro `mSetSigned(_msg,_signed) = BF_SET(_msg.version_length, _signed, 2, 1)`. -/
def mSetSigned (msg : MyMessage) (v : Nat) : MyMessage :=
  { msg with version_length := BF_SET msg.version_length v 2 1 }

/-- Macro `mGetSigned(_msg) = BF_GET(_msg.version_length, 2, 1)`. -/
def mGetSigned (msg : MyMessage) : Nat := BF_GET msg.version_length 2 1

/-- Macro `mSetLength(_msg,_length) = BF_SET(_msg.version_length, _length, 3, 5)`
(also the internal `miSetLength`). -/
def mSetLength (msg : MyMessage) (v : Nat) : MyMessage :=
  { msg with version_length := BF_SET msg.version_length v 3 5 }

/-- Macro `mGetLength(_msg) = BF_GET(_msg.version_length, 3, 5)`
(also the internal `miGetLength`). -/
def mGetLength (msg : MyMessage) : Nat := BF_GET msg.version_length 3 5

/-- Macro `mSetCommand(_msg,_command) = BF_SET(_msg.command_ack_payload, _command, 0, 3)`. -/
def mSetCommand (msg : MyMessage) (v : Nat) : MyMessage :=
  { msg with command_ack_payload := BF_SET msg.command_ack_payload v 0 3 }

/-- Macro `mGetCommand(_msg) = BF_GET(_msg.command_ack_payload, 0, 3)`
(also the internal `miGetCommand`). -/
def mGetCommand (msg : MyMessage) : Nat := BF_GET msg.command_ack_payload 0 3

/-- Macro `mSetRequestAck(_msg,_rack) = BF_SET(_msg.command_ack_payload, _rack, 3, 1)`. -/
def mSetRequestAck (msg : MyMessage) (v : Nat) : MyMessage :=
  { msg with command_ack_payload := BF_SET msg.command_ack_payload v 3 1 }

/-- Macro `mGetRequestAck(_msg) = BF_GET(_msg.command_ack_payload, 3, 1)`. -/
def mGetRequestAck (msg : MyMessage) : Nat := BF_GET msg.command_ack_payload 3 1

/-- Macro `mSetAck(_msg,_ackMsg) = BF_SET(_msg.command_ack_payload, _ackMsg, 4, 1)`. -/
def mSetAck (msg : MyMessage) (v : Nat) : MyMessage :=
  { msg with command_ack_payload := BF_SET msg.command_ack_payload v 4 1 }

/-- Macro `mGetAck(_msg) = BF_GET(_msg.command_ack_payload, 4, 1)`. -/
def mGetAck (msg : MyMessage) : Nat := BF_GET msg.command_ack_payload 4 1

/-- Macro `mSetPayloadType(_msg, _pt) = BF_SET(_msg.command_ack_payload, _pt, 5, 3)`
(also the internal `miSetPayloadType`). -/
def mSetPayloadType (msg : MyMessage) (v : Nat) : MyMessage :=
  { msg with command_ack_payload := BF_SET msg.command_ack_payload v 5 3 }

/-- Macro `mGetPayloadType(_msg) = BF_GET(_msg.command_ack_payload, 5, 3)`. -/
def mGetPayloadType (msg : MyMessage) : Nat := BF_GET msg.command_ack_payload 5 3

/-- Modelled from the spec: the body of `MyMessage::getCommand()` lives in the
absent `MyMessage.cpp`; per the spec it extracts the 3-bit command sub-field
(the declared internal macro `miGetCommand`). -/
def MyMessage.getCommand (msg : MyMessage) : Nat := BF_GET msg.command_ack_payload 0 3

/-- Modelled from the spec: the body of `MyMessage::isAck()` lives in the absent
`MyMessage.cpp`; per the spec it extracts the 1-bit ack-flag sub-field
(the declared internal macro `miGetAck`), nonzero meaning true. -/
def MyMessage.isAck (msg : MyMessage) : Bool := BF_GET msg.command_ack_payload 4 1 != 0

/-- C6: the header sub-field pack/unpack operations use exactly the layout
version(2)@0, signed(1)@2, length(5)@3 within `version_length` and
command(3)@0, requestAck(1)@3, isAck(1)@4, payloadType(3)@5 within
`command_ack_payload`: each getter reads exactly those bit positions
(`x / 2^start % 2^len`) and each setter rewrites exactly those bit positions,
leaving the complementary bits of the byte intact. -/
theorem C6_header_bit_layout (msg : MyMessage) (v : Nat)
    (h1 : msg.version_length < 256) (h2 : msg.command_ack_payload < 256) :
    mGetVersion msg = msg.version_length % 4 ∧
    mGetSigned msg = msg.version_length / 4 % 2 ∧
    mGetLength msg = msg.version_length / 8 % 32 ∧
    mGetCommand msg = msg.command_ack_payload % 8 ∧
    mGetRequestAck msg = msg.command_ack_payload / 8 % 2 ∧
    mGetAck msg = msg.command_ack_payload / 16 % 2 ∧
    mGetPayloadType msg = msg.command_ack_payload / 32 % 8 ∧
    (mSetVersion msg v).version_length = v % 4 + msg.version_length / 4 * 4 ∧
    (mSetSigned msg v).version_length
      = msg.version_length % 4 + v % 2 * 4 + msg.version_length / 8 * 8 ∧
    (mSetLength msg v).version_length = msg.version_length % 8 + v % 32 * 8 ∧
    (mSetCommand msg v).command_ack_payload
      = v % 8 + msg.command_ack_payload / 8 * 8 ∧
    (mSetRequestAck msg v).command_ack_payload
      = msg.command_ack_payload % 8 + v % 2 * 8 + msg.command_ack_payload / 16 * 16 ∧
    (mSetAck msg v).command_ack_payload
      = msg.command_ack_payload % 16 + v % 2 * 16 + msg.command_ack_payload / 32 * 32 ∧
    (mSetPayloadType msg v).command_ack_payload
      = msg.command_ack_payload % 32 + v % 8 * 32 := by
  refine ⟨?_, ?_, ?_, ?_, ?_, ?_, ?_, ?_, ?_, ?_, ?_, ?_, ?_, ?_⟩
  · rw [mGetVersion, BF_GET_eq_div_mod]; norm_num
  · rw [mGetSigned, BF_GET_eq_div_mod]; norm_num
  · rw [mGetLength, BF_GET_eq_div_mod]; norm_num
  · rw [mGetCommand, BF_GET_eq_div_mod]; norm_num
  · rw [mGetRequestAck, BF_GET_eq_div_mod]; norm_num
  · rw [mGetAck, BF_GET_eq_div_mod]; norm_num
  · rw [mGetPayloadType, BF_GET_eq_div_mod]; norm_num
  · show BF_SET msg.version_length v 0 2 = _
    rw [BF_SET_eq_arith _ v 0 2 h1 (by norm_num)]; norm_num [Nat.mod_one]
  · show BF_SET msg.version_length v 2 1 = _
    rw [BF_SET_eq_arith _ v 2 1 h1 (by norm_num)]; norm_num
  · show BF_SET msg.version_length v 3 5 = _
    rw [BF_SET_eq_arith _ v 3 5 h1 (by norm_num)]
    norm_num [Nat.div_eq_of_lt h1]
  · show BF_SET msg.command_ack_payload v 0 3 = _
    rw [BF_SET_eq_arith _ v 0 3 h2 (by norm_num)]; norm_num [Nat.mod_one]
  · show BF_SET msg.command_ack_payload v 3 1 = _
    rw [BF_SET_eq_arith _ v 3 1 h2 (by norm_num)]; norm_num
  · show BF_SET msg.command_ack_payload v 4 1 = _
    rw [BF_SET_eq_arith _ v 4 1 h2 (by norm_num)]; norm_num
  · show BF_SET msg.command_ack_payload v 5 3 = _
    rw [BF_SET_eq_arith _ v 5 3 h2 (by norm_num)]
    norm_num [Nat.div_eq_of_lt h2]

theorem C6_header_bit_layout_witness :
    mGetVersion ⟨1, 2, 3, 213, 106, 4, 5, []⟩ = 1 ∧
    mGetSigned ⟨1, 2, 3, 213, 106, 4, 5, []⟩ = 1 ∧
    mGetLength ⟨1, 2, 3, 213, 106, 4, 5, []⟩ = 26 ∧
    mGetCommand ⟨1, 2, 3, 213, 106, 4, 5, []⟩ = 2 ∧
    mGetRequestAck ⟨1, 2, 3, 213, 106, 4, 5, []⟩ = 1 ∧
    mGetAck ⟨1, 2, 3, 213, 106, 4, 5, []⟩ = 0 ∧
    mGetPayloadType ⟨1, 2, 3, 213, 106, 4, 5, []⟩ = 3 ∧
    (mSetVersion ⟨1, 2, 3, 213, 106, 4, 5, []⟩ 3).version_length = 215 ∧
    (mSetSigned ⟨1, 2, 3, 213, 106, 4, 5, []⟩ 3).version_length = 213 ∧
    (mSetLength ⟨1, 2, 3, 213, 106, 4, 5, []⟩ 3).version_length = 29 ∧
    (mSetCommand ⟨1, 2, 3, 213, 106, 4, 5, []⟩ 3).command_ack_payload = 107 ∧
    (mSetRequestAck ⟨1, 2, 3, 213, 106, 4, 5, []⟩ 3).command_ack_payload = 106 ∧
    (mSetAck ⟨1, 2, 3, 213, 106, 4, 5, []⟩ 3).command_ack_payload = 122 ∧
    (mSetPayloadType ⟨1, 2, 3, 213, 106, 4, 5, []⟩ 3).command_ack_payload = 106 := by
  simpa using C6_header_bit_layout ⟨1, 2, 3, 213, 106, 4, 5, []⟩ 3 (by decide) (by decide)

/-- C10: every bitfield extraction is bounded by its width regardless of the
container's contents — `BF_GET y start len < 2^len` for all `y`; in particular
`getCommand()` returns a value below 8, `mGetLength` a value below 32, and the
ack and signed single-bit getters return only 0 or 1. -/
theorem C10_extract_bounded :
    (∀ y start len : Nat, BF_GET y start len < 2 ^ len) ∧
    (∀ msg : MyMessage, msg.getCommand < 8 ∧ mGetLength msg < 32 ∧
      (mGetAck msg = 0 ∨ mGetAck msg = 1) ∧
      (mGetSigned msg = 0 ∨ mGetSigned msg = 1)) := by
  refine ⟨fun y s l => BF_GET_lt y s l, fun msg => ⟨?_, ?_, ?_, ?_⟩⟩
  · have h := BF_GET_lt msg.command_ack_payload 0 3
    norm_num at h
    exact h
  · have h := BF_GET_lt msg.version_length 3 5
    norm_num at h
    exact h
  · have h := BF_GET_lt msg.command_ack_payload 4 1
    norm_num at h
    rw [mGetAck]
    omega
  · have h := BF_GET_lt msg.version_length 2 1
    norm_num at h
    rw [mGetSigned]
    omega

/-- Overwrite the front of the fixed payload buffer with `bytes`, leaving the
remaining bytes of the union untouched (as a C member store does). -/
def storeBytes (data bytes : List Nat) : List Nat := bytes ++ data.drop bytes.length

/-- Read byte `i` of the payload buffer (`data[i]` of the fixed C array). -/
def byteAt (data : List Nat) (i : Nat) : Nat := data.getD i 0

/-- Little-endian byte pattern of a 16-bit unsigned value. -/
def bytesOfUInt16 (v : Nat) : List Nat := [v % 256, v / 256 % 256]

/-- Little-endian byte pattern of a 32-bit unsigned value. -/
def bytesOfUInt32 (v : Nat) : List Nat :=
  [v % 256, v / 256 % 256, v / 65536 % 256, v / 16777216 % 256]

/-- Decode a 16-bit unsigned value from the first two payload bytes. -/
def uint16OfBytes (data : List Nat) : Nat := byteAt data 0 + 256 * byteAt data 1

/-- Decode a 32-bit unsigned value from the first four payload bytes. -/
def uint32OfBytes (data : List Nat) : Nat :=
  byteAt data 0 + 256 * byteAt data 1 + 65536 * byteAt data 2 + 16777216 * byteAt data 3

/-- Two's-complement byte pattern of a signed 16-bit value. -/
def bytesOfInt16 (v : Int) : List Nat := bytesOfUInt16 (v % 65536).toNat

/-- Two's-complement byte pattern of a signed 32-bit value. -/
def bytesOfInt32 (v : Int) : List Nat := bytesOfUInt32 (v % 4294967296).toNat

/-- Decode a signed 16-bit value from the first two payload bytes. -/
def int16OfBytes (data : List Nat) : Int :=
  if uint16OfBytes data < 32768 then (uint16OfBytes data : Int)
  else (uint16OfBytes data : Int) - 65536

/-- Decode a signed 32-bit value from the first four payload bytes. -/
def int32OfBytes (data : List Nat) : Int :=
  if uint32OfBytes data < 2147483648 then (uint32OfBytes data : Int)
  else (uint32OfBytes data : Int) - 4294967296

/-- Modelled from the spec: `MyMessage::set(bool value)` (body in the absent
`MyMessage.cpp`) stores the value's single byte, sets `length` to 1 and
`payloadType` to the byte tag. -/
def MyMessage.setBool (msg : MyMessage) (value : Bool) : MyMessage :=
  mSetPayloadType
    (mSetLength { msg with data := storeBytes msg.data [if value then 1 else 0] } 1) P_BYTE

/-- Modelled from the spec: `MyMessage::set(uint8_t value)` stores the byte,
sets `length` to 1 and `payloadType` to `P_BYTE`. -/
def MyMessage.setByte (msg : MyMessage) (value : Nat) : MyMessage :=
  mSetPayloadType
    (mSetLength { msg with data := storeBytes msg.data [value % 256] } 1) P_BYTE

/-- Modelled from the spec: `MyMessage::set(uint16_t value)` stores the native
two-byte pattern, sets `length` to 2 and `payloadType` to `P_UINT16`. -/
def MyMessage.setUInt16 (msg : MyMessage) (value : Nat) : MyMessage :=
  mSetPayloadType
    (mSetLength { msg with data := storeBytes msg.data (bytesOfUInt16 value) } 2) P_UINT16

/-- Modelled from the spec: `MyMessage::set(int16_t value)` stores the native
two-byte pattern, sets `length` to 2 and `payloadType` to `P_INT16`. -/
def MyMessage.setInt16 (msg : MyMessage) (value : Int) : MyMessage :=
  mSetPayloadType
    (mSetLength { msg with data := storeBytes msg.data (bytesOfInt16 value) } 2) P_INT16

/-- Modelled from the spec: `MyMessage::set(uint32_t value)` stores the native
four-byte pattern, sets `length` to 4 and `payloadType` to `P_ULONG32`. -/
def MyMessage.setUInt32 (msg : MyMessage) (value : Nat) : MyMessage :=
  mSetPayloadType
    (mSetLength { msg with data := storeBytes msg.data (bytesOfUInt32 value) } 4) P_ULONG32

/-- Modelled from the spec: `MyMessage::set(int32_t value)` stores the native
four-byte pattern, sets `length` to 4 and `payloadType` to `P_LONG32`. -/
def MyMessage.setInt32 (msg : MyMessage) (value : Int) : MyMessage :=
  mSetPayloadType
    (mSetLength { msg with data := storeBytes msg.data (bytesOfInt32 value) } 4) P_LONG32

/-- Modelled from the spec: `MyMessage::set(float value, uint8_t decimals)`
stores the float's four-byte pattern (`fValue`, here represented by its 32-bit
bit pattern `bits`) followed by the precision byte `fPrecision`, sets `length`
to 4 and `payloadType` to `P_FLOAT32`. -/
def MyMessage.setFloat (msg : MyMessage) (bits decimals : Nat) : MyMessage :=
  mSetPayloadType
    (mSetLength
      { msg with data := storeBytes msg.data (bytesOfUInt32 bits ++ [decimals % 256]) } 4)
    P_FLOAT32

/-- Modelled from the spec: `MyMessage::set(const char* value)` copies the
text's characters, appends the non-transmitted terminator, sets `length` to the
character count and `payloadType` to `P_STRING`. -/
def MyMessage.setString (msg : MyMessage) (s : List Nat) : MyMessage :=
  mSetPayloadType
    (mSetLength { msg with data := storeBytes msg.data (s ++ [0]) } s.length) P_STRING

/-- Modelled from the spec: `MyMessage::set(void* payload, uint8_t length)`
copies the raw buffer, sets `length` to the given byte count and `payloadType`
to `P_CUSTOM`. -/
def MyMessage.setBuffer (msg : MyMessage) (payload : List Nat) : MyMessage :=
  mSetPayloadType
    (mSetLength { msg with data := storeBytes msg.data payload } payload.length) P_CUSTOM

/-- Modelled from the spec: `MyMessage::getBool()` reads the stored byte
(`bValue`), nonzero meaning true. -/
def MyMessage.getBool (msg : MyMessage) : Bool := byteAt msg.data 0 != 0

/-- Modelled from the spec: `MyMessage::getByte()` reads the stored byte `bValue`. -/
def MyMessage.getByte (msg : MyMessage) : Nat := byteAt msg.data 0

/-- Modelled from the spec: `MyMessage::getUInt()` reinterprets the first two
payload bytes as `uiValue`. -/
def MyMessage.getUInt (msg : MyMessage) : Nat := uint16OfBytes msg.data

/-- Modelled from the spec: `MyMessage::getInt()` reinterprets the first two
payload bytes as `iValue`. -/
def MyMessage.getInt (msg : MyMessage) : Int := int16OfBytes msg.data

/-- Modelled from the spec: `MyMessage::getULong()` reinterprets the first four
payload bytes as `ulValue`. -/
def MyMessage.getULong (msg : MyMessage) : Nat := uint32OfBytes msg.data

/-- Modelled from the spec: `MyMessage::getLong()` reinterprets the first four
payload bytes as `lValue`. -/
def MyMessage.getLong (msg : MyMessage) : Int := int32OfBytes msg.data

/-- Modelled from the spec: `MyMessage::getFloat()` reinterprets the first four
payload bytes as `fValue`, here represented by its 32-bit bit pattern. -/
def MyMessage.getFloat (msg : MyMessage) : Nat := uint32OfBytes msg.data

/-- Modelled from the spec: the default constructor `MyMessage()` (body in the
absent `MyMessage.cpp`) produces a message with all fields zero. -/
def MyMessage.mkDefault : MyMessage := ⟨0, 0, 0, 0, 0, 0, 0, List.replicate 26 0⟩

/-- Modelled from the spec: the constructor `MyMessage(uint8_t sensor, uint8_t type)`
(body in the absent `MyMessage.cpp`) pre-sets `sensor` and `type`, the command
sub-field to `C_SET` and the payload-type sub-field to `P_STRING`, all other
fields zero. -/
def MyMessage.mkSensorType (sensor type : Nat) : MyMessage :=
  mSetPayloadType (mSetCommand ⟨0, 0, 0, 0, 0, type, sensor, List.replicate 26 0⟩ C_SET) P_STRING

/-- C8: the default constructor produces a message with all fields zero, and the
`(sensor, type)` constructor pre-sets those two fields, the command sub-field to
the set command (`C_SET = 1`) and the payload-type sub-field to the string tag
(`P_STRING = 0`). -/
theorem C8_constructors (s t : Nat) :
    MyMessage.mkDefault.last = 0 ∧ MyMessage.mkDefault.sender = 0 ∧
    MyMessage.mkDefault.destination = 0 ∧ MyMessage.mkDefault.version_length = 0 ∧
    MyMessage.mkDefault.command_ack_payload = 0 ∧ MyMessage.mkDefault.type = 0 ∧
    MyMessage.mkDefault.sensor = 0 ∧ MyMessage.mkDefault.data = List.replicate 26 0 ∧
    (MyMessage.mkSensorType s t).sensor = s ∧ (MyMessage.mkSensorType s t).type = t ∧
    (MyMessage.mkSensorType s t).last = 0 ∧ (MyMessage.mkSensorType s t).sender = 0 ∧
    (MyMessage.mkSensorType s t).destination = 0 ∧
    (MyMessage.mkSensorType s t).version_length = 0 ∧
    mGetCommand (MyMessage.mkSensorType s t) = C_SET ∧
    mGetPayloadType (MyMessage.mkSensorType s t) = P_STRING := by
  refine ⟨rfl, rfl, rfl, rfl, rfl, rfl, rfl, rfl, rfl, rfl, rfl, rfl, rfl, rfl, ?_, ?_⟩
  · show BF_GET (BF_SET (BF_SET 0 C_SET 0 3) P_STRING 5 3) 0 3 = C_SET
    decide
  · show BF_GET (BF_SET (BF_SET 0 C_SET 0 3) P_STRING 5 3) 5 3 = P_STRING
    decide

lemma mGetLength_mSetLength (msg : MyMessage) (n : Nat) (h1 : msg.version_length < 256) :
    BF_GET (BF_SET msg.version_length n 3 5) 3 5 = n % 32 := by
  have h := BF_GET_BF_SET msg.version_length n 3 5 h1 (by norm_num)
  norm_num at h
  exact h

/-- C3: after any typed `set` overload the 5-bit length field equals the exact
byte width of the stored representation (1 for byte/bool, 2 for 16-bit forms,
4 for 32-bit forms including float32, the character count for string/custom),
and on every state reachable through the constructors and the `set` overloads
(with string/custom payloads within the `MAX_PAYLOAD` capacity) the length
field never exceeds `MAX_PAYLOAD = 25`. -/
theorem C3_length_field (msg : MyMessage) (b : Bool) (u8 u16 u32 bits d : Nat)
    (i16 i32 : Int) (s buf : List Nat) (sv tv : Nat)
    (h1 : msg.version_length < 256)
    (hs : s.length ≤ MAX_PAYLOAD) (hbuf : buf.length ≤ MAX_PAYLOAD) :
    mGetLength (msg.setBool b) = 1 ∧
    mGetLength (msg.setByte u8) = 1 ∧
    mGetLength (msg.setInt16 i16) = 2 ∧
    mGetLength (msg.setUInt16 u16) = 2 ∧
    mGetLength (msg.setInt32 i32) = 4 ∧
    mGetLength (msg.setUInt32 u32) = 4 ∧
    mGetLength (msg.setFloat bits d) = 4 ∧
    mGetLength (msg.setString s) = s.length ∧
    mGetLength (msg.setBuffer buf) = buf.length ∧
    mGetLength MyMessage.mkDefault = 0 ∧
    mGetLength (MyMessage.mkSensorType sv tv) = 0 ∧
    mGetLength (msg.setBool b) ≤ MAX_PAYLOAD ∧
    mGetLength (msg.setByte u8) ≤ MAX_PAYLOAD ∧
    mGetLength (msg.setInt16 i16) ≤ MAX_PAYLOAD ∧
    mGetLength (msg.setUInt16 u16) ≤ MAX_PAYLOAD ∧
    mGetLength (msg.setInt32 i32) ≤ MAX_PAYLOAD ∧
    mGetLength (msg.setUInt32 u32) ≤ MAX_PAYLOAD ∧
    mGetLength (msg.setFloat bits d) ≤ MAX_PAYLOAD ∧
    mGetLength (msg.setString s) ≤ MAX_PAYLOAD ∧
    mGetLength (msg.setBuffer buf) ≤ MAX_PAYLOAD ∧
    mGetLength MyMessage.mkDefault ≤ MAX_PAYLOAD ∧
    mGetLength (MyMessage.mkSensorType sv tv) ≤ MAX_PAYLOAD := by
  have hmp : MAX_PAYLOAD = 25 := rfl
  have e1 : mGetLength (msg.setBool b) = 1 := by
    show BF_GET (BF_SET msg.version_length 1 3 5) 3 5 = 1
    rw [mGetLength_mSetLength msg 1 h1]
  have e2 : mGetLength (msg.setByte u8) = 1 := by
    show BF_GET (BF_SET msg.version_length 1 3 5) 3 5 = 1
    rw [mGetLength_mSetLength msg 1 h1]
  have e3 : mGetLength (msg.setInt16 i16) = 2 := by
    show BF_GET (BF_SET msg.version_length 2 3 5) 3 5 = 2
    rw [mGetLength_mSetLength msg 2 h1]
  have e4 : mGetLength (msg.setUInt16 u16) = 2 := by
    show BF_GET (BF_SET msg.version_length 2 3 5) 3 5 = 2
    rw [mGetLength_mSetLength msg 2 h1]
  have e5 : mGetLength (msg.setInt32 i32) = 4 := by
    show BF_GET (BF_SET msg.version_length 4 3 5) 3 5 = 4
    rw [mGetLength_mSetLength msg 4 h1]
  have e6 : mGetLength (msg.setUInt32 u32) = 4 := by
    show BF_GET (BF_SET msg.version_length 4 3 5) 3 5 = 4
    rw [mGetLength_mSetLength msg 4 h1]
  have e7 : mGetLength (msg.setFloat bits d) = 4 := by
    show BF_GET (BF_SET msg.version_length 4 3 5) 3 5 = 4
    rw [mGetLength_mSetLength msg 4 h1]
  have e8 : mGetLength (msg.setString s) = s.length := by
    show BF_GET (BF_SET msg.version_length s.length 3 5) 3 5 = s.length
    rw [mGetLength_mSetLength msg s.length h1]
    omega
  have e9 : mGetLength (msg.setBuffer buf) = buf.length := by
    show BF_GET (BF_SET msg.version_length buf.length 3 5) 3 5 = buf.length
    rw [mGetLength_mSetLength msg buf.length h1]
    omega
  have e10 : mGetLength MyMessage.mkDefault = 0 := by decide
  have e11 : mGetLength (MyMessage.mkSensorType sv tv) = 0 := by
    show BF_GET 0 3 5 = 0
    decide
  refine ⟨e1, e2, e3, e4, e5, e6, e7, e8, e9, e10, e11, ?_, ?_, ?_, ?_, ?_, ?_, ?_, ?_, ?_, ?_, ?_⟩
  all_goals first
    | (rw [e1, hmp]; omega) | (rw [e2, hmp]; omega) | (rw [e3, hmp]; omega)
    | (rw [e4, hmp]; omega) | (rw [e5, hmp]; omega) | (rw [e6, hmp]; omega)
    | (rw [e7, hmp]; omega) | (rw [e8]; omega) | (rw [e9]; omega)
    | (rw [e10, hmp]; omega) | (rw [e11, hmp]; omega)

lemma uint16OfBytes_append (v : Nat) (rest : List Nat) (h : v < 65536) :
    uint16OfBytes (bytesOfUInt16 v ++ rest) = v := by
  simp [uint16OfBytes, bytesOfUInt16, byteAt]
  omega

lemma uint32OfBytes_append (v : Nat) (rest : List Nat) (h : v < 4294967296) :
    uint32OfBytes (bytesOfUInt32 v ++ rest) = v := by
  simp [uint32OfBytes, bytesOfUInt32, byteAt]
  omega

lemma setUInt16_data (msg : MyMessage) (v : Nat) :
    (msg.setUInt16 v).data = bytesOfUInt16 v ++ msg.data.drop 2 := by
  simp [MyMessage.setUInt16, mSetPayloadType, mSetLength, storeBytes, bytesOfUInt16]

lemma setInt16_data (msg : MyMessage) (v : Int) :
    (msg.setInt16 v).data = bytesOfUInt16 (v % 65536).toNat ++ msg.data.drop 2 := by
  simp [MyMessage.setInt16, mSetPayloadType, mSetLength, storeBytes, bytesOfInt16,
    bytesOfUInt16]

lemma setUInt32_data (msg : MyMessage) (v : Nat) :
    (msg.setUInt32 v).data = bytesOfUInt32 v ++ msg.data.drop 4 := by
  simp [MyMessage.setUInt32, mSetPayloadType, mSetLength, storeBytes, bytesOfUInt32]

lemma setInt32_data (msg : MyMessage) (v : Int) :
    (msg.setInt32 v).data = bytesOfUInt32 (v % 4294967296).toNat ++ msg.data.drop 4 := by
  simp [MyMessage.setInt32, mSetPayloadType, mSetLength, storeBytes, bytesOfInt32,
    bytesOfUInt32]

lemma setFloat_data (msg : MyMessage) (bits d : Nat) :
    (msg.setFloat bits d).data = bytesOfUInt32 bits ++ ([d % 256] ++ msg.data.drop 5) := by
  simp [MyMessage.setFloat, mSetPayloadType, mSetLength, storeBytes, bytesOfUInt32]

/-- C5: for every payload type tag and value of the matching native type,
calling the matching `set` overload and then the matching typed getter returns
the original value exactly (a float is represented here by its 32-bit pattern,
which the store/reinterpret pair preserves bit for bit). -/
theorem C5_typed_set_get_roundtrip (msg : MyMessage) (b : Bool)
    (u8 u16 u32 bits d : Nat) (i16 i32 : Int)
    (h8 : u8 < 256) (h16 : u16 < 65536) (h32 : u32 < 4294967296)
    (hbits : bits < 4294967296)
    (hi16a : -32768 ≤ i16) (hi16b : i16 < 32768)
    (hi32a : -2147483648 ≤ i32) (hi32b : i32 < 2147483648) :
    (msg.setBool b).getBool = b ∧
    (msg.setByte u8).getByte = u8 ∧
    (msg.setInt16 i16).getInt = i16 ∧
    (msg.setUInt16 u16).getUInt = u16 ∧
    (msg.setInt32 i32).getLong = i32 ∧
    (msg.setUInt32 u32).getULong = u32 ∧
    (msg.setFloat bits d).getFloat = bits := by
  refine ⟨?_, ?_, ?_, ?_, ?_, ?_, ?_⟩
  · cases b <;>
      simp [MyMessage.setBool, MyMessage.getBool, mSetPayloadType, mSetLength,
        storeBytes, byteAt]
  · show byteAt (msg.setByte u8).data 0 = u8
    have hdata : (msg.setByte u8).data = u8 % 256 :: msg.data.drop 1 := by
      simp [MyMessage.setByte, mSetPayloadType, mSetLength, storeBytes]
    rw [hdata]
    simp [byteAt]
    omega
  · have hn : (i16 % 65536).toNat < 65536 := by omega
    show int16OfBytes (msg.setInt16 i16).data = i16
    rw [setInt16_data, int16OfBytes, uint16OfBytes_append _ _ hn]
    split_ifs <;> omega
  · show uint16OfBytes (msg.setUInt16 u16).data = u16
    rw [setUInt16_data, uint16OfBytes_append _ _ h16]
  · have hn : (i32 % 4294967296).toNat < 4294967296 := by omega
    show int32OfBytes (msg.setInt32 i32).data = i32
    rw [setInt32_data, int32OfBytes, uint32OfBytes_append _ _ hn]
    split_ifs <;> omega
  · show uint32OfBytes (msg.setUInt32 u32).data = u32
    rw [setUInt32_data, uint32OfBytes_append _ _ h32]
  · show uint32OfBytes (msg.setFloat bits d).data = bits
    rw [setFloat_data, uint32OfBytes_append _ _ hbits]

/-- Inserting into one field does not change the extraction of a disjoint field. -/
lemma BF_GET_BF_SET_disjoint (y v s l t m : Nat) (hy : y < 256) (hsl : s + l ≤ 8)
    (hdisj : t + m ≤ s ∨ s + l ≤ t) :
    BF_GET (BF_SET y v s l) t m = BF_GET y t m := by
  apply Nat.eq_of_testBit_eq
  intro i
  unfold BF_GET
  rw [BIT_MASK_eq]
  simp only [Nat.testBit_land, Nat.testBit_shiftRight, Nat.testBit_two_pow_sub_one,
    testBit_BF_SET y v s l (t + i) hy hsl]
  by_cases him : i < m
  · have hreg : ¬ (s ≤ t + i ∧ t + i < s + l) := by omega
    simp [hreg]
  · simp [him]

lemma set_shape_preserves_ack_cmd (msg : MyMessage) (d : List Nat) (n pt : Nat)
    (h2 : msg.command_ack_payload < 256) :
    (mSetPayloadType (mSetLength { msg with data := d } n) pt).isAck = msg.isAck ∧
    (mSetPayloadType (mSetLength { msg with data := d } n) pt).getCommand
      = msg.getCommand := by
  constructor
  · show (BF_GET (BF_SET msg.command_ack_payload pt 5 3) 4 1 != 0)
      = (BF_GET msg.command_ack_payload 4 1 != 0)
    rw [BF_GET_BF_SET_disjoint msg.command_ack_payload pt 5 3 4 1 h2 (by norm_num)
      (Or.inl (by norm_num))]
  · show BF_GET (BF_SET msg.command_ack_payload pt 5 3) 0 3
      = BF_GET msg.command_ack_payload 0 3
    exact BF_GET_BF_SET_disjoint msg.command_ack_payload pt 5 3 0 3 h2 (by norm_num)
      (Or.inl (by norm_num))

/-- C7: no payload mutation (any `set` overload, which rewrites the length and
payload-type sub-fields and the payload bytes) changes the values returned by
`isAck()` and `getCommand()`: the command and isAck sub-fields of
`command_ack_payload` are untouched. -/
theorem C7_set_preserves_ack_and_command (msg : MyMessage) (b : Bool)
    (u8 u16 u32 bits d : Nat) (i16 i32 : Int) (s buf : List Nat)
    (h2 : msg.command_ack_payload < 256) :
    (msg.setBool b).isAck = msg.isAck ∧ (msg.setBool b).getCommand = msg.getCommand ∧
    (msg.setByte u8).isAck = msg.isAck ∧ (msg.setByte u8).getCommand = msg.getCommand ∧
    (msg.setInt16 i16).isAck = msg.isAck ∧ (msg.setInt16 i16).getCommand = msg.getCommand ∧
    (msg.setUInt16 u16).isAck = msg.isAck ∧ (msg.setUInt16 u16).getCommand = msg.getCommand ∧
    (msg.setInt32 i32).isAck = msg.isAck ∧ (msg.setInt32 i32).getCommand = msg.getCommand ∧
    (msg.setUInt32 u32).isAck = msg.isAck ∧ (msg.setUInt32 u32).getCommand = msg.getCommand ∧
    (msg.setFloat bits d).isAck = msg.isAck ∧
    (msg.setFloat bits d).getCommand = msg.getCommand ∧
    (msg.setString s).isAck = msg.isAck ∧ (msg.setString s).getCommand = msg.getCommand ∧
    (msg.setBuffer buf).isAck = msg.isAck ∧
    (msg.setBuffer buf).getCommand = msg.getCommand :=
  ⟨(set_shape_preserves_ack_cmd msg _ _ _ h2).1, (set_shape_preserves_ack_cmd msg _ _ _ h2).2,
   (set_shape_preserves_ack_cmd msg _ _ _ h2).1, (set_shape_preserves_ack_cmd msg _ _ _ h2).2,
   (set_shape_preserves_ack_cmd msg _ _ _ h2).1, (set_shape_preserves_ack_cmd msg _ _ _ h2).2,
   (set_shape_preserves_ack_cmd msg _ _ _ h2).1, (set_shape_preserves_ack_cmd msg _ _ _ h2).2,
   (set_shape_preserves_ack_cmd msg _ _ _ h2).1, (set_shape_preserves_ack_cmd msg _ _ _ h2).2,
   (set_shape_preserves_ack_cmd msg _ _ _ h2).1, (set_shape_preserves_ack_cmd msg _ _ _ h2).2,
   (set_shape_preserves_ack_cmd msg _ _ _ h2).1, (set_shape_preserves_ack_cmd msg _ _ _ h2).2,
   (set_shape_preserves_ack_cmd msg _ _ _ h2).1, (set_shape_preserves_ack_cmd msg _ _ _ h2).2,
   (set_shape_preserves_ack_cmd msg _ _ _ h2).1, (set_shape_preserves_ack_cmd msg _ _ _ h2).2⟩

/-- A concrete message used to instantiate the theorems with hypotheses. -/
def msgW : MyMessage := ⟨1, 2, 3, 213, 106, 4, 5, [9, 9, 9, 9, 9]⟩

theorem C3_length_field_witness :
    mGetLength (MyMessage.setBool msgW true) = 1 ∧
    mGetLength (MyMessage.setByte msgW 7) = 1 ∧
    mGetLength (MyMessage.setInt16 msgW (-5)) = 2 ∧
    mGetLength (MyMessage.setUInt16 msgW 1234) = 2 ∧
    mGetLength (MyMessage.setInt32 msgW (-7)) = 4 ∧
    mGetLength (MyMessage.setUInt32 msgW 70000) = 4 ∧
    mGetLength (MyMessage.setFloat msgW 1078530011 2) = 4 ∧
    mGetLength (MyMessage.setString msgW [104, 105]) = 2 ∧
    mGetLength (MyMessage.setBuffer msgW [1, 2, 3]) = 3 ∧
    mGetLength MyMessage.mkDefault = 0 ∧
    mGetLength (MyMessage.mkSensorType 3 5) = 0 ∧
    mGetLength (MyMessage.setBool msgW true) ≤ MAX_PAYLOAD ∧
    mGetLength (MyMessage.setByte msgW 7) ≤ MAX_PAYLOAD ∧
    mGetLength (MyMessage.setInt16 msgW (-5)) ≤ MAX_PAYLOAD ∧
    mGetLength (MyMessage.setUInt16 msgW 1234) ≤ MAX_PAYLOAD ∧
    mGetLength (MyMessage.setInt32 msgW (-7)) ≤ MAX_PAYLOAD ∧
    mGetLength (MyMessage.setUInt32 msgW 70000) ≤ MAX_PAYLOAD ∧
    mGetLength (MyMessage.setFloat msgW 1078530011 2) ≤ MAX_PAYLOAD ∧
    mGetLength (MyMessage.setString msgW [104, 105]) ≤ MAX_PAYLOAD ∧
    mGetLength (MyMessage.setBuffer msgW [1, 2, 3]) ≤ MAX_PAYLOAD ∧
    mGetLength MyMessage.mkDefault ≤ MAX_PAYLOAD ∧
    mGetLength (MyMessage.mkSensorType 3 5) ≤ MAX_PAYLOAD :=
  C3_length_field msgW true 7 1234 70000 1078530011 2 (-5) (-7) [104, 105] [1, 2, 3] 3 5
    (by decide) (by decide) (by decide)

theorem C5_typed_set_get_roundtrip_witness :
    (MyMessage.setBool msgW true).getBool = true ∧
    (MyMessage.setByte msgW 7).getByte = 7 ∧
    (MyMessage.setInt16 msgW (-5)).getInt = -5 ∧
    (MyMessage.setUInt16 msgW 1234).getUInt = 1234 ∧
    (MyMessage.setInt32 msgW (-7)).getLong = -7 ∧
    (MyMessage.setUInt32 msgW 70000).getULong = 70000 ∧
    (MyMessage.setFloat msgW 1078530011 2).getFloat = 1078530011 :=
  C5_typed_set_get_roundtrip msgW true 7 1234 70000 1078530011 2 (-5) (-7)
    (by decide) (by decide) (by decide) (by decide)
    (by decide) (by decide) (by decide) (by decide)

theorem C7_set_preserves_ack_and_command_witness :
    (MyMessage.setBool msgW true).isAck = msgW.isAck ∧
    (MyMessage.setBool msgW true).getCommand = msgW.getCommand ∧
    (MyMessage.setByte msgW 7).isAck = msgW.isAck ∧
    (MyMessage.setByte msgW 7).getCommand = msgW.getCommand ∧
    (MyMessage.setInt16 msgW (-5)).isAck = msgW.isAck ∧
    (MyMessage.setInt16 msgW (-5)).getCommand = msgW.getCommand ∧
    (MyMessage.setUInt16 msgW 1234).isAck = msgW.isAck ∧
    (MyMessage.setUInt16 msgW 1234).getCommand = msgW.getCommand ∧
    (MyMessage.setInt32 msgW (-7)).isAck = msgW.isAck ∧
    (MyMessage.setInt32 msgW (-7)).getCommand = msgW.getCommand ∧
    (MyMessage.setUInt32 msgW 70000).isAck = msgW.isAck ∧
    (MyMessage.setUInt32 msgW 70000).getCommand = msgW.getCommand ∧
    (MyMessage.setFloat msgW 1078530011 2).isAck = msgW.isAck ∧
    (MyMessage.setFloat msgW 1078530011 2).getCommand = msgW.getCommand ∧
    (MyMessage.setString msgW [104, 105]).isAck = msgW.isAck ∧
    (MyMessage.setString msgW [104, 105]).getCommand = msgW.getCommand ∧
    (MyMessage.setBuffer msgW [1, 2, 3]).isAck = msgW.isAck ∧
    (MyMessage.setBuffer msgW [1, 2, 3]).getCommand = msgW.getCommand :=
  C7_set_preserves_ack_and_command msgW true 7 1234 70000 1078530011 2 (-5) (-7)
    [104, 105] [1, 2, 3] (by decide)

/-- Modelled from the spec: the declared nibble-to-character helper
`MyMessage::i2h` (body in the absent `MyMessage.cpp`) maps 0–9 to '0'–'9' and
10–15 to 'a'–'f'. -/
def i2h (i : Nat) : Char :=
  if i % 16 < 10 then Char.ofNat (48 + i % 16) else Char.ofNat (87 + i % 16)

/-- Modelled from the spec: the inverse nibble mapping of the implied
hex-to-message direction — '0'–'9' to 0–9 and 'a'–'f' to 10–15. -/
def h2i (c : Char) : Nat :=
  if 97 ≤ c.toNat then c.toNat - 87 else c.toNat - 48

/-- Render a byte sequence as hex text, two characters per byte, the
most-significant nibble first. -/
def toHexChars : List Nat → List Char
  | [] => []
  | b :: t => i2h (b / 16) :: i2h (b % 16) :: toHexChars t

/-- Modelled from the spec: reconstruct each byte of a message from two
consecutive hex characters of the text. -/
def fromHexChars : List Char → List Nat
  | c1 :: c2 :: t => (h2i c1 * 16 + h2i c2) :: fromHexChars t
  | [c] => [h2i c * 16]
  | [] => []

/-- Modelled from the spec: the byte sequence serialized by `getStream` — the
seven header bytes followed by exactly `length` payload bytes. -/
def MyMessage.msgBytes (msg : MyMessage) : List Nat :=
  [msg.last, msg.sender, msg.destination, msg.version_length,
   msg.command_ack_payload, msg.type, msg.sensor] ++ msg.data.take (mGetLength msg)

/-- Modelled from the spec: `MyMessage::getStream` (body in the absent
`MyMessage.cpp`) renders the header-plus-payload bytes as hex text. -/
def MyMessage.getStream (msg : MyMessage) : List Char :=
  toHexChars (MyMessage.msgBytes msg)

lemma h2i_i2h (n : Nat) (h : n < 16) : h2i (i2h n) = n := by
  interval_cases n <;> decide

lemma fromHexChars_toHexChars (bs : List Nat) (h : ∀ b ∈ bs, b < 256) :
    fromHexChars (toHexChars bs) = bs := by
  induction bs with
  | nil => rfl
  | cons b t ih =>
    have hb : b < 256 := h b (List.mem_cons_self b t)
    have ht : ∀ x ∈ t, x < 256 := fun x hx => h x (List.mem_cons_of_mem b hx)
    rw [toHexChars, fromHexChars, ih ht, h2i_i2h (b / 16) (by omega),
      h2i_i2h (b % 16) (by omega)]
    congr 1
    omega

lemma toHexChars_length (bs : List Nat) : (toHexChars bs).length = 2 * bs.length := by
  induction bs with
  | nil => rfl
  | cons b t ih => rw [toHexChars]; simp [ih]; omega

/-- C4: for every message whose length field is `L` and whose buffer holds its
bytes, hex-encoding the `7 + L` header-plus-payload bytes (two hex characters
per byte, most-significant nibble first) and decoding the text again yields the
same `7 + L` bytes unchanged. -/
theorem C4_hex_roundtrip (msg : MyMessage)
    (hbytes : ∀ b ∈ MyMessage.msgBytes msg, b < 256)
    (hlen : mGetLength msg ≤ msg.data.length) :
    fromHexChars (MyMessage.getStream msg) = MyMessage.msgBytes msg ∧
    (MyMessage.msgBytes msg).length = 7 + mGetLength msg ∧
    (MyMessage.getStream msg).length = 2 * (7 + mGetLength msg) := by
  have hlen7 : (MyMessage.msgBytes msg).length = 7 + mGetLength msg := by
    simp [MyMessage.msgBytes]
    omega
  refine ⟨fromHexChars_toHexChars _ hbytes, hlen7, ?_⟩
  rw [MyMessage.getStream, toHexChars_length, hlen7]

theorem C4_hex_roundtrip_witness :
    fromHexChars (MyMessage.getStream ⟨10, 11, 12, 16, 33, 13, 14, [222, 173]⟩)
      = MyMessage.msgBytes ⟨10, 11, 12, 16, 33, 13, 14, [222, 173]⟩ ∧
    (MyMessage.msgBytes ⟨10, 11, 12, 16, 33, 13, 14, [222, 173]⟩).length
      = 7 + mGetLength ⟨10, 11, 12, 16, 33, 13, 14, [222, 173]⟩ ∧
    (MyMessage.getStream ⟨10, 11, 12, 16, 33, 13, 14, [222, 173]⟩).length
      = 2 * (7 + mGetLength ⟨10, 11, 12, 16, 33, 13, 14, [222, 173]⟩) :=
  C4_hex_roundtrip ⟨10, 11, 12, 16, 33, 13, 14, [222, 173]⟩ (by decide) (by decide)
